import Mathlib

/-!
Shallow embedding of the twenzetu-safari-web client scripts.

The repository is a static tourism site whose scripts fetch JSON from a
remote API (with a mock-data fallback) and render HTML fragment strings
into page containers.  We embed the three scripts that carry the logic:

* `api.js`    — `apiFetch`, the fetch-with-mock-fallback adapter, and the
  `api.*` endpoint wrappers built on it.
* `regions.js` — pure HTML builders (`buildAttractionCard`,
  `buildRegionSection`), the preview filter `getAttractionsByRegion`, and
  the page controller `init`.
* `about.js`  — the contributor loader for the about page.

Modelling conventions:
* The outcome of a pending network request is a `NetResult` value: either a
  response (HTTP status plus the JSON-parse outcome of its body), a
  network error, or a timeout/abort.  The 8-second timer itself is real
  time and is not modelled; an expired timer simply yields `.aborted`.
* JavaScript exceptions become `Except String`; a thrown fallback is an
  `Except.error` that the adapter returns unhandled.
* api.js line 27 is `return res.json()` with no `await`: on an ok status
  the try block exits before the parse settles, so a parse rejection
  bypasses the catch — no warning, no fallback.  `apiFetch` therefore
  returns the body parse outcome unchanged on ok statuses.
* `console.warn` output is modelled as a list of emitted warning strings
  returned alongside the result.
* DOM effects are modelled as a `PageTrace`: the list of URLs fetched and
  the list of `innerHTML` writes performed on the container element.
* JavaScript numbers that hold coordinates are modelled as rationals
  (`ℚ`): `region.latitude` stands for the value `parseFloat` produced,
  and `toFixed4` models the `Number.prototype.toFixed(4)` rendering of a
  finite value.
-/

namespace TwenzetuSafari

/-- Outcome of an HTTP fetch attempt, as observed by the caller:
either a response arrived (with its status code and the result of parsing
its body as JSON), or the request failed on the network, or it was
aborted (the 8-second timeout fires `controller.abort()`). -/
inductive NetResult (α : Type) where
  | response (status : Nat) (body : Except String α)
  | networkError (msg : String)
  | aborted (msg : String)

/-- Model of `Response.ok` in the fetch API: status in the 200–299 range. -/
def resOk (status : Nat) : Bool :=
  200 ≤ status && status ≤ 299

/-- The error the catch block of `apiFetch` observes, if any: the thrown
`API error: <status>` for a non-ok status, a network error, or an abort.
A parse rejection of `res.json()` on an ok status is deliberately absent
here: api.js line 27 returns that promise *without* `await`, so the try
block exits before the parse settles and a later parse rejection
bypasses the catch entirely. -/
def caughtError {α : Type} : NetResult α → Option String
  | .response status _ => if resOk status then none else some ("API error: " ++ toString status)
  | .networkError msg => some msg
  | .aborted msg => some msg

/-- The warning `apiFetch` logs when falling back
(api.js line 30: `console.warn` of the path and the error message). -/
def apiWarnMsg (path msg : String) : String :=
  "[api] Falling back to mock data for " ++ path ++ ": " ++ msg

/-- api.js line 16: module-level flag; `true` forces mock data. -/
def USE_MOCK : Bool := false

/-- api.js `apiFetch(path, mockFallback)`: if `USE_MOCK`, return the
fallback immediately (no warning, no network).  A caught failure — a
thrown non-ok status, a network error, or an abort — logs one warning
naming the path and returns `mockFallback()`; a fallback that throws
there is *not* caught, so its error is the outcome of the call.  On an
ok status the un-awaited `return res.json()` hands the settlement of the
parse back to the caller unchanged: a parse rejection propagates with no
warning and without invoking the fallback.
The pair is (result, warnings logged). -/
def apiFetch {α : Type} (useMock : Bool) (path : String) (net : NetResult α)
    (mockFallback : Unit → Except String α) : Except String α × List String :=
  if useMock then (mockFallback (), [])
  else
    match net with
    | .response status body =>
        if resOk status then (body, [])
        else (mockFallback (), [apiWarnMsg path ("API error: " ++ toString status)])
    | .networkError msg => (mockFallback (), [apiWarnMsg path msg])
    | .aborted msg => (mockFallback (), [apiWarnMsg path msg])

namespace api

/-- api.js `api.getRegions`: `apiFetch` on path `/regions/` with fallback `MOCK_DATA.regions`.
`mockRegions` stands for `MOCK_DATA.regions` (mockdata.js is data only). -/
def getRegions {ρ : Type} (net : NetResult (List ρ)) (mockRegions : List ρ) :
    Except String (List ρ) × List String :=
  apiFetch USE_MOCK "/regions/" net (fun _ => .ok mockRegions)

/-- api.js `api.getAttractions`: `apiFetch` on path `/attractions/` with fallback `MOCK_DATA.attractions`. -/
def getAttractions {α : Type} (net : NetResult (List α)) (mockAttractions : List α) :
    Except String (List α) × List String :=
  apiFetch USE_MOCK "/attractions/" net (fun _ => .ok mockAttractions)

/-- The fallback closure of api.js `api.getAttraction` (lines 49–53):
look the slug up in `MOCK_DATA.attractionDetails`; if absent, throw
`Attraction "<slug>" not found in mock data`. -/
def getAttractionFallback {α : Type} (attractionDetails : String → Option α)
    (slug : String) : Unit → Except String α :=
  fun _ =>
    match attractionDetails slug with
    | some detail => .ok detail
    | none => .error ("Attraction \"" ++ slug ++ "\" not found in mock data")

/-- api.js `api.getAttraction(slug)`:
`apiFetch` on path `/attractions/<slug>/` with the lookup fallback. -/
def getAttraction {α : Type} (attractionDetails : String → Option α)
    (slug : String) (net : NetResult α) : Except String α × List String :=
  apiFetch USE_MOCK ("/attractions/" ++ slug ++ "/") net
    (getAttractionFallback attractionDetails slug)

end api

/-! ## regions.js — data model -/

/-- A region record as consumed by regions.js.  `latitude`/`longitude`
stand for the finite numeric values `parseFloat(region.latitude)` /
`parseFloat(region.longitude)` produce; `image` is `none` when the field
is absent (JS `undefined`/`null`) and `some ""` when present but empty —
both are falsy for the `region.image || fallbackImg` default. -/
structure Region where
  slug : String
  name : String
  description : String
  image : Option String
  latitude : ℚ
  longitude : ℚ
  attraction_count : Int

/-- An attraction record as consumed by regions.js. -/
structure Attraction where
  slug : String
  name : String
  region_name : String
  featured_image : Option String
  difficulty_level : String
  is_featured : Bool

/-! ## regions.js — helpers -/

/-- JavaScript `v || fallback` specialised to string-or-missing values:
a missing value or the empty string is falsy and yields the fallback. -/
def jsOr (v : Option String) (fallback : String) : String :=
  match v with
  | none => fallback
  | some s => if s == "" then fallback else s

/-- The placeholder image path; regions.js binds this same literal as a
local `fallbackImg` constant in both `buildAttractionCard` (line 55) and
`buildRegionSection` (line 107). -/
def fallbackImg : String := "images/photo-1547036967-23d11aacaee0.jpg"

/-- regions.js line 56: `attraction.featured_image || fallbackImg`. -/
def attractionImgSrc (attraction : Attraction) : String :=
  jsOr attraction.featured_image fallbackImg

/-- regions.js line 108: `region.image || fallbackImg`. -/
def regionImgSrc (region : Region) : String :=
  jsOr region.image fallbackImg

/-- regions.js `difficultyBadge(level)`. -/
def difficultyBadge (level : String) : String :=
  s!"<span class=\"badge-{level} text-xs font-semibold px-2 py-0.5 rounded-full capitalize\">{level}</span>"

/-- regions.js `getAttractionsByRegion(attractions, regionName)`:
`attractions.filter(a => a.region_name === regionName).slice(0, 3)`. -/
def getAttractionsByRegion (attractions : List Attraction) (regionName : String) :
    List Attraction :=
  (attractions.filter (fun a => a.region_name == regionName)).take 3

/-- regions.js line 111: `const imageLeft = index % 2 === 0`. -/
def imageLeft (index : Nat) : Bool := index % 2 == 0

/-- The flex-direction class `buildRegionSection` interpolates
(line 131): `lg:flex-row` when `imageLeft`, else `lg:flex-row-reverse`.
With `lg:flex-row` the first child (the hero image block) is laid out
before the description panel; `lg:flex-row-reverse` reverses them. -/
def rowDirectionClass (index : Nat) : String :=
  if imageLeft index then "lg:flex-row" else "lg:flex-row-reverse"

/-- The four zero-padded fraction digits of `toFixed(4)` for a scaled
remainder `n < 10000`. -/
def frac4 (n : Nat) : String :=
  String.mk [Nat.digitChar (n / 1000 % 10), Nat.digitChar (n / 100 % 10),
    Nat.digitChar (n / 10 % 10), Nat.digitChar (n % 10)]

/-- Round a rational to the nearest integer (half towards +∞):
`⌊q + 1/2⌋` computed as a floor division so it evaluates by reduction. -/
def ratRound (q : ℚ) : Int := Int.fdiv (2 * q.num + q.den) (2 * q.den)

/-- Decimal rendering of a value already scaled by 10000: optional sign,
integer part, point, four zero-padded fraction digits. -/
def fixedOfScaled (scaled : Int) : String :=
  let sign : String := if scaled < 0 then "-" else ""
  let units : Nat := scaled.natAbs
  sign ++ Nat.repr (units / 10000) ++ "." ++ frac4 (units % 10000)

/-- Model of `Number.prototype.toFixed(4)` on a finite value: the decimal
numeral of the value rounded to the nearest multiple of 1/10000, written
with the integer part followed by a point and exactly four fraction
digits (zero-padded; the tie-break direction of the rounding is
immaterial to everything proved below).  Used by regions.js lines
114–115: `parseFloat(region.latitude).toFixed(4)`. -/
def toFixed4 (q : ℚ) : String :=
  fixedOfScaled (ratRound (q * 10000))

/-- The coordinate badge text of `buildRegionSection` (line 163,
`${lat}, ${lng}` with `lat`/`lng` from lines 114–115). -/
def regionCoordText (region : Region) : String :=
  toFixed4 region.latitude ++ ", " ++ toFixed4 region.longitude

/-- The attraction-count badge text of `buildRegionSection` (line 158):
the count, a space and the word `Attraction`, with a plural `s` appended
exactly when the count differs from 1. -/
def attractionCountLabel (count : Int) : String :=
  toString count ++ " Attraction" ++ (if count != 1 then "s" else "")

/-- UTF-8 bytes of a code point, as numbers below 256. -/
def utf8Bytes (n : Nat) : List Nat :=
  if n < 128 then [n]
  else if n < 2048 then [192 + n / 64, 128 + n % 64]
  else if n < 65536 then [224 + n / 4096, 128 + n / 64 % 64, 128 + n % 64]
  else [240 + n / 262144, 128 + n / 4096 % 64, 128 + n / 64 % 64, 128 + n % 64]

/-- Upper-case hex digit for `d < 16`. -/
def upperHexChar (d : Nat) : Char :=
  if d < 10 then Nat.digitChar d else Char.ofNat (55 + d)

/-- Percent escape of one byte, two upper-case hex digits. -/
def percentByte (b : Nat) : String :=
  String.mk [Char.ofNat 37, upperHexChar (b / 16), upperHexChar (b % 16)]

/-- Characters `encodeURIComponent` leaves unescaped:
alphanumerics and the nine unreserved marks (hyphen, underscore, period,
exclamation, tilde, asterisk, apostrophe and the parentheses), matched by
code point. -/
def isUnreservedChar (c : Char) : Bool :=
  c.isAlphanum || [45, 95, 46, 33, 126, 42, 39, 40, 41].contains c.toNat

/-- Model of the `encodeURIComponent` builtin used at regions.js
line 176: percent-encode every UTF-8 byte of each reserved character. -/
def encodeURIComponent (s : String) : String :=
  String.join (s.data.map fun c =>
    if isUnreservedChar c then String.singleton c
    else String.join ((utf8Bytes c.toNat).map percentByte))

/-! ## regions.js — HTML builders -/

/-- regions.js `buildAttractionCard(attraction)`: the mini-card fragment
for one attraction inside the preview grid of a region. -/
def buildAttractionCard (attraction : Attraction) : String :=
  let imgSrc := attractionImgSrc attraction
  let badge := difficultyBadge attraction.difficulty_level
  s!"
    <article class=\"group rounded-xl overflow-hidden bg-white shadow-sm hover:shadow-md transition-shadow\">

      <!-- Attraction thumbnail -->
      <div class=\"relative aspect-video overflow-hidden\">
        <img src=\"{imgSrc}\"
             alt=\"{attraction.name}\"
             class=\"w-full h-full object-cover group-hover:scale-105 transition-transform duration-500\"
             loading=\"lazy\" />
        <!-- Difficulty badge overlays the image bottom-left -->
        <div class=\"absolute bottom-2 left-2\">
          {badge}
        </div>
      </div>

      <!-- Card body: name + link -->
      <div class=\"p-4 flex items-center justify-between gap-2\">
        <h4 class=\"font-display text-sm font-bold text-tz-dark leading-snug\">
          {attraction.name}
        </h4>
        <a href=\"attraction.html?slug={attraction.slug}\"
           class=\"shrink-0 text-tz-forest hover:text-tz-forest/70 transition-colors\"
           aria-label=\"View details for {attraction.name}\">
          <i data-lucide=\"arrow-right\" class=\"w-4 h-4\"></i>
        </a>
      </div>

    </article>
  "

/-- The empty-grid placeholder of `buildRegionSection` (line 121). -/
def noAttractionsHtml : String :=
  "<p class=\"col-span-full text-tz-muted text-sm italic\">No attractions listed yet.</p>"

/-- regions.js `buildRegionSection(region, attractions, index)`: the full
section for one region — hero image (with `lg:flex-row` /
`lg:flex-row-reverse` alternation by index parity), title, description,
attraction-count badge, coordinate badge (`toFixed(4)` each), CTA link
pre-filtered by region name, and the up-to-3-card preview grid. -/
def buildRegionSection (region : Region) (attractions : List Attraction)
    (index : Nat) : String :=
  let imgSrc := regionImgSrc region
  let rowClass := rowDirectionClass index
  let lat := toFixed4 region.latitude
  let lng := toFixed4 region.longitude
  let countLabel := attractionCountLabel region.attraction_count
  let encodedName := encodeURIComponent region.name
  let attractionCards :=
    if attractions.length > 0 then String.join (attractions.map buildAttractionCard)
    else noAttractionsHtml
  s!"
    <!-- ── Region: {region.name} ──────────────────────────────── -->
    <section id=\"region-{region.slug}\"
             class=\"scroll-mt-20\"
             data-aos=\"fade-up\"
             aria-labelledby=\"region-title-{region.slug}\">

      <!-- Top row: hero image + description panel -->
      <div class=\"flex flex-col {rowClass} gap-8 lg:gap-12 items-stretch mb-10\">

        <!-- Region hero image — 1/3 width on desktop -->
        <div class=\"lg:w-1/3 shrink-0 rounded-2xl overflow-hidden shadow-md\">
          <img src=\"{imgSrc}\"
               alt=\"Landscape of {region.name} region\"
               class=\"w-full h-full object-cover min-h-64 lg:min-h-0\"
               loading=\"lazy\" />
        </div>

        <!-- Description panel — 2/3 width on desktop -->
        <div class=\"flex flex-col justify-center flex-1\">

          <!-- Region name -->
          <h2 id=\"region-title-{region.slug}\"
              class=\"font-display text-4xl sm:text-5xl font-bold text-tz-dark mb-4 leading-tight\">
            {region.name}
          </h2>

          <!-- Description paragraph -->
          <p class=\"text-tz-muted text-base sm:text-lg leading-relaxed mb-6\">
            {region.description}
          </p>

          <!-- Meta row: attraction count + GPS coordinates -->
          <div class=\"flex flex-wrap items-center gap-4 mb-8\">

            <!-- Attraction count badge -->
            <span class=\"inline-flex items-center gap-1.5 bg-tz-forest/10 text-tz-forest
                         text-sm font-semibold px-3 py-1.5 rounded-full\">
              <i data-lucide=\"map-pin\" class=\"w-4 h-4\" aria-hidden=\"true\"></i>
              {countLabel}
            </span>

            <!-- GPS coordinates -->
            <span class=\"inline-flex items-center gap-1.5 bg-tz-sand text-tz-earth
                         text-sm font-mono px-3 py-1.5 rounded-full\"
                  title=\"GPS coordinates for {region.name}\">
              <i data-lucide=\"navigation\" class=\"w-4 h-4\" aria-hidden=\"true\"></i>
              {lat}, {lng}
            </span>

          </div>

          <!-- \"View Attractions\" CTA — links to attractions.html pre-filtered -->
          <div>
            <a href=\"attractions.html?region={encodedName}\"
               class=\"inline-flex items-center gap-2 bg-tz-forest text-white font-semibold
                      px-6 py-3 rounded-full hover:bg-tz-forest/90 transition-colors shadow-sm\">
              View Attractions
              <i data-lucide=\"arrow-right\" class=\"w-4 h-4\" aria-hidden=\"true\"></i>
            </a>
          </div>

        </div>
      </div>

      <!-- Attractions preview grid: up to 3 cards -->
      <div>
        <h3 class=\"font-display text-xl font-semibold text-tz-dark mb-5 flex items-center gap-2\">
          <i data-lucide=\"layout-grid\" class=\"w-5 h-5 text-tz-savanna\" aria-hidden=\"true\"></i>
          Top Attractions in {region.name}
        </h3>
        <div class=\"grid grid-cols-1 sm:grid-cols-2 lg:grid-cols-3 gap-5\"
             aria-label=\"Attractions preview for {region.name}\">
          {attractionCards}
        </div>
      </div>

      <!-- Subtle divider (hidden on last item via CSS sibling, handled by spacing) -->
      <div class=\"mt-16 border-b border-gray-100\" aria-hidden=\"true\"></div>

    </section>
  "

/-! ## regions.js — page controller -/

/-- The observable effects of one page-controller run: the request URLs
issued and the successive `innerHTML` writes to the container. -/
structure PageTrace where
  fetches : List String
  writes : List String

/-- The two endpoint paths `init` requests via `Promise.all`
(regions.js lines 225–228). -/
def regionsFetchPaths : List String := ["/regions/", "/attractions/"]

/-- The page-level failure markup the catch block of `init` writes
(regions.js lines 262–266). -/
def regionsFailureHtml : String :=
  "
      <p class=\"text-center text-red-500 py-16\">
        Failed to load regions. Please try refreshing the page.
      </p>
    "

/-- The single bulk fragment `init` writes on success (lines 232–235):
every region rendered in source order, each with its ≤3-attraction
preview, joined with no separator. -/
def renderRegionsHtml (regions : List Region) (attractions : List Attraction) : String :=
  String.join (regions.mapIdx (fun index region =>
    buildRegionSection region (getAttractionsByRegion attractions region.name) index))

/-- regions.js `init()`.  `hasContainer` is whether
`document.getElementById` found the `regions-container` element; if not,
the function returns before any fetch.  `regionsRes`/`attractionsRes` are
the settled outcomes of the two `api` calls joined by `Promise.all`: if
either is a rejection the combined await throws, control reaches the
catch block, and the one write is the failure markup; otherwise the one
write is the combined fragment.  Icon/animation re-init and the
`?highlight` smooth scroll touch no container HTML and leave no trace. -/
def init (hasContainer : Bool) (regionsRes : Except String (List Region))
    (attractionsRes : Except String (List Attraction)) : PageTrace :=
  if !hasContainer then ⟨[], []⟩
  else
    match regionsRes, attractionsRes with
    | .ok regions, .ok attractions =>
        ⟨regionsFetchPaths, [renderRegionsHtml regions attractions]⟩
    | .error _, _ => ⟨regionsFetchPaths, [regionsFailureHtml]⟩
    | .ok _, .error _ => ⟨regionsFetchPaths, [regionsFailureHtml]⟩

/-! ## about.js — contributor loader -/

/-- A contributor record from the GitHub contributors endpoint. -/
structure Contributor where
  login : String
  avatar_url : String
  html_url : String
  contributions : Int

/-- about.js line 8: the module-level repository constant. -/
def GITHUB_REPO : String := "cleven12/twenzetu-safari-web"

/-- The URL `loadContributors` fetches (about.js line 19). -/
def contributorsUrl : String :=
  s!"https://api.github.com/repos/{GITHUB_REPO}/contributors?per_page=20"

/-- The `try` block of `loadContributors` up to the parsed body
(about.js lines 19–21): if `!res.ok` throw `GitHub API: <status>`,
otherwise await the JSON parse.  about.js passes no abort signal, so
`.aborted` does not arise there, but every rejection reaches the same
catch block. -/
def githubAttempt : NetResult (List Contributor) → Except String (List Contributor)
  | .response status body =>
      if resOk status then body else .error ("GitHub API: " ++ toString status)
  | .networkError msg => .error msg
  | .aborted msg => .error msg

/-- The contributions badge of one contributor card (about.js line 36):
the count, a space and the word `contribution`, with a plural `s`
appended exactly when the count differs from 1. -/
def contributionsLabel (count : Int) : String :=
  toString count ++ " contribution" ++ (if count != 1 then "s" else "")

/-- One contributor avatar card (about.js lines 28–38). -/
def buildContributorCard (c : Contributor) : String :=
  let contribLabel := contributionsLabel c.contributions
  s!"
      <a href=\"{c.html_url}\" target=\"_blank\" rel=\"noopener noreferrer\"
         class=\"contributor-card bg-white rounded-xl p-5 shadow-sm border border-gray-100
                flex flex-col items-center text-center\"
         data-aos=\"fade-up\">
        <img src=\"{c.avatar_url}&s=80\" alt=\"{c.login}\" class=\"w-14 h-14 rounded-full mb-3 shadow-sm\" loading=\"lazy\" />
        <span class=\"font-semibold text-tz-dark text-sm\">{c.login}</span>
        <span class=\"text-xs text-tz-muted mt-1\">{contribLabel}</span>
      </a>
    "

/-- The explicit empty-state markup (about.js line 24). -/
def contributorsEmptyHtml : String :=
  "<p class=\"col-span-full text-tz-muted text-center text-sm\">No contributors found yet. Be the first!</p>"

/-- The fetch-failure markup: the static external-link block the catch
handler writes (about.js lines 45–53). -/
def contributorsFailureHtml : String :=
  s!"
      <div class=\"col-span-full text-center py-8\">
        <p class=\"text-tz-muted text-sm mb-3\">Could not load contributors from GitHub. They may be rate-limited.</p>
        <a href=\"https://github.com/{GITHUB_REPO}/graphs/contributors\" target=\"_blank\" rel=\"noopener noreferrer\"
           class=\"inline-flex items-center gap-2 text-sm font-semibold text-tz-forest hover:text-tz-forest/80 transition-colors\">
          <i data-lucide=\"external-link\" class=\"w-4 h-4\"></i> View contributors on GitHub
        </a>
      </div>
    "

/-- about.js `loadContributors()`.  `hasGrid` is whether
`document.getElementById` found the `contributors-grid` element; if not,
the function returns before the fetch.  Otherwise: a rejected attempt
writes the failure markup; an empty parsed list writes the empty-state
markup; a populated list writes the joined avatar cards. -/
def loadContributors (hasGrid : Bool) (net : NetResult (List Contributor)) : PageTrace :=
  if !hasGrid then ⟨[], []⟩
  else
    ⟨[contributorsUrl],
      match githubAttempt net with
      | .ok contributors =>
          if contributors.length == 0 then [contributorsEmptyHtml]
          else [String.join (contributors.map buildContributorCard)]
      | .error _ => [contributorsFailureHtml]⟩

/-! ## Helper lemmas -/

lemma digitChar_isDigit {d : Nat} (h : d < 10) : (Nat.digitChar d).isDigit = true := by
  interval_cases d <;> decide

lemma toDigitsCore_all_digits :
    ∀ (fuel n : Nat) (acc : List Char), (∀ c ∈ acc, c.isDigit = true) →
      ∀ c ∈ Nat.toDigitsCore 10 fuel n acc, c.isDigit = true := by
  intro fuel
  induction fuel with
  | zero =>
      intro n acc hacc c hc
      simp only [Nat.toDigitsCore] at hc
      exact hacc c hc
  | succ f ih =>
      intro n acc hacc c hc
      simp only [Nat.toDigitsCore] at hc
      by_cases h0 : n / 10 = 0
      · rw [if_pos h0] at hc
        rcases List.mem_cons.mp hc with h | h
        · subst h; exact digitChar_isDigit (Nat.mod_lt n (by decide))
        · exact hacc c h
      · rw [if_neg h0] at hc
        refine ih (n / 10) (Nat.digitChar (n % 10) :: acc) ?_ c hc
        intro d hd
        rcases List.mem_cons.mp hd with h | h
        · subst h; exact digitChar_isDigit (Nat.mod_lt n (by decide))
        · exact hacc d h

lemma repr_all_digits (n : Nat) : ∀ c ∈ (Nat.repr n).data, c.isDigit = true := by
  intro c hc
  have hm : c ∈ Nat.toDigitsCore 10 (n + 1) n [] := by
    simpa [Nat.repr, Nat.toDigits, List.asString] using hc
  exact toDigitsCore_all_digits (n + 1) n [] (by simp) c hm

lemma dot_not_mem_repr (n : Nat) : '.' ∉ (Nat.repr n).data := by
  intro h
  exact absurd (repr_all_digits n _ h) (by decide)

lemma frac4_data (n : Nat) :
    (frac4 n).data = [Nat.digitChar (n / 1000 % 10), Nat.digitChar (n / 100 % 10),
      Nat.digitChar (n / 10 % 10), Nat.digitChar (n % 10)] := rfl

lemma frac4_all_digits (n : Nat) : ∀ c ∈ (frac4 n).data, c.isDigit = true := by
  intro c hc
  rw [frac4_data] at hc
  have h10 : ∀ m : Nat, m % 10 < 10 := fun m => Nat.mod_lt m (by decide)
  rcases List.mem_cons.mp hc with h | hc
  · subst h; exact digitChar_isDigit (h10 _)
  rcases List.mem_cons.mp hc with h | hc
  · subst h; exact digitChar_isDigit (h10 _)
  rcases List.mem_cons.mp hc with h | hc
  · subst h; exact digitChar_isDigit (h10 _)
  rcases List.mem_cons.mp hc with h | hc
  · subst h; exact digitChar_isDigit (h10 _)
  · exact absurd hc (List.not_mem_nil c)

lemma dot_not_mem_frac4 (n : Nat) : '.' ∉ (frac4 n).data := by
  intro h
  exact absurd (frac4_all_digits n _ h) (by decide)

lemma str_append_assoc (a b c : String) : a ++ b ++ c = a ++ (b ++ c) :=
  String.ext (by simp [String.data_append])

lemma apiFetch_caught {α : Type} (path : String) (net : NetResult α)
    (mockFallback : Unit → Except String α) (ea : String)
    (h : caughtError net = some ea) :
    apiFetch false path net mockFallback = (mockFallback (), [apiWarnMsg path ea]) := by
  cases net with
  | response status body =>
      cases hok : resOk status with
      | true => simp [caughtError, hok] at h
      | false =>
          simp only [caughtError, hok, Bool.false_eq_true, if_false, Option.some.injEq] at h
          subst h
          simp [apiFetch, hok]
  | networkError msg =>
      simp only [caughtError, Option.some.injEq] at h
      subst h
      simp [apiFetch]
  | aborted msg =>
      simp only [caughtError, Option.some.injEq] at h
      subst h
      simp [apiFetch]

/-! ## Claims -/

/-- C4: for every attractions list and region name,
`getAttractionsByRegion` returns at most 3 items, every returned item has
`region_name` exactly equal (case-sensitively) to the given name, and the
returned items form a sublist of the source list — same relative order,
no other sort. -/
theorem getAttractionsByRegion_bounded_exact_ordered
    (attractions : List Attraction) (regionName : String) :
    (getAttractionsByRegion attractions regionName).length ≤ 3 ∧
    (∀ a ∈ getAttractionsByRegion attractions regionName, a.region_name = regionName) ∧
    (getAttractionsByRegion attractions regionName).Sublist attractions := by
  refine ⟨?_, ?_, ?_⟩
  · simp only [getAttractionsByRegion]
    exact List.length_take_le 3 (attractions.filter (fun a => a.region_name == regionName))
  · intro a ha
    simp only [getAttractionsByRegion] at ha
    have h1 : a ∈ List.filter (fun a => a.region_name == regionName) attractions :=
      List.mem_of_mem_take ha
    have h2 :=
      @List.of_mem_filter Attraction (fun x => x.region_name == regionName) a attractions h1
    exact beq_iff_eq.mp h2
  · exact (List.take_sublist 3 _).trans (List.filter_sublist attractions)

/-- C4 witness: the bound, the exact-match condition and the order
preservation at a concrete two-element dataset. -/
theorem getAttractionsByRegion_bounded_exact_ordered_witness :
    (getAttractionsByRegion
        [⟨"mount-kilimanjaro", "Mount Kilimanjaro", "Kilimanjaro", some "a.jpg", "extreme", true⟩,
         ⟨"ngorongoro", "Ngorongoro Crater", "Arusha", none, "easy", false⟩]
        "Kilimanjaro").length ≤ 3 ∧
    (∀ a ∈ getAttractionsByRegion
        [⟨"mount-kilimanjaro", "Mount Kilimanjaro", "Kilimanjaro", some "a.jpg", "extreme", true⟩,
         ⟨"ngorongoro", "Ngorongoro Crater", "Arusha", none, "easy", false⟩]
        "Kilimanjaro", a.region_name = "Kilimanjaro") ∧
    (getAttractionsByRegion
        [⟨"mount-kilimanjaro", "Mount Kilimanjaro", "Kilimanjaro", some "a.jpg", "extreme", true⟩,
         ⟨"ngorongoro", "Ngorongoro Crater", "Arusha", none, "easy", false⟩]
        "Kilimanjaro").Sublist
      [⟨"mount-kilimanjaro", "Mount Kilimanjaro", "Kilimanjaro", some "a.jpg", "extreme", true⟩,
       ⟨"ngorongoro", "Ngorongoro Crater", "Arusha", none, "easy", false⟩] :=
  getAttractionsByRegion_bounded_exact_ordered _ "Kilimanjaro"

/-- C7: the attraction-count badge is pluralized correctly — count 1
yields the singular label, and any other integer (0, negatives, n ≥ 2)
yields the plural label. -/
theorem attraction_count_pluralization (count : Int) :
    (count = 1 → attractionCountLabel count = "1 Attraction") ∧
    (count ≠ 1 → attractionCountLabel count = toString count ++ " Attractions") := by
  constructor
  · rintro rfl
    rfl
  · intro h
    have hb : (count != 1) = true := by simpa using h
    simp only [attractionCountLabel, hb, if_true]
    rw [str_append_assoc]
    rfl

/-- C7 witness: `1 Attraction` for count 1, `5 Attractions` and
`0 Attractions` for other counts. -/
theorem attraction_count_pluralization_witness :
    attractionCountLabel 1 = "1 Attraction" ∧
    attractionCountLabel 5 = toString (5 : Int) ++ " Attractions" ∧
    attractionCountLabel 0 = toString (0 : Int) ++ " Attractions" :=
  ⟨(attraction_count_pluralization 1).1 rfl,
   (attraction_count_pluralization 5).2 (by decide),
   (attraction_count_pluralization 0).2 (by decide)⟩

/-- C8: the flex-direction class `buildRegionSection` emits alternates by
index parity alone — even index gives `lg:flex-row` (hero image block,
the first child, precedes the description panel), odd index gives
`lg:flex-row-reverse` (description precedes image); no region data is
consulted. -/
theorem section_layout_alternates_by_parity (index : Nat) :
    (index % 2 = 0 → rowDirectionClass index = "lg:flex-row") ∧
    (index % 2 = 1 → rowDirectionClass index = "lg:flex-row-reverse") := by
  constructor <;> intro h <;> simp [rowDirectionClass, imageLeft, h]

/-- C8 witness: indices 0, 1, 2, 3. -/
theorem section_layout_alternates_by_parity_witness :
    rowDirectionClass 0 = "lg:flex-row" ∧
    rowDirectionClass 1 = "lg:flex-row-reverse" ∧
    rowDirectionClass 2 = "lg:flex-row" ∧
    rowDirectionClass 3 = "lg:flex-row-reverse" :=
  ⟨(section_layout_alternates_by_parity 0).1 rfl,
   (section_layout_alternates_by_parity 1).2 rfl,
   (section_layout_alternates_by_parity 2).1 rfl,
   (section_layout_alternates_by_parity 3).2 rfl⟩

/-- C9: a region whose `image` is absent or empty gets the hero image
`images/photo-1547036967-23d11aacaee0.jpg` — the same placeholder
`buildAttractionCard` uses for attractions without a `featured_image` —
while a region with a non-empty `image` keeps it unchanged. -/
theorem region_image_placeholder_shared (region : Region) :
    ((region.image = none ∨ region.image = some "") →
      regionImgSrc region = "images/photo-1547036967-23d11aacaee0.jpg") ∧
    (∀ s, region.image = some s → s ≠ "" → regionImgSrc region = s) ∧
    (∀ a : Attraction, (a.featured_image = none ∨ a.featured_image = some "") →
      attractionImgSrc a = "images/photo-1547036967-23d11aacaee0.jpg") := by
  refine ⟨?_, ?_, ?_⟩
  · rintro (h | h) <;> simp [regionImgSrc, jsOr, fallbackImg, h]
  · intro s hs hne
    have hb : (s == "") = false := by simpa using hne
    simp [regionImgSrc, jsOr, hs, hb]
  · rintro a (h | h) <;> simp [attractionImgSrc, jsOr, fallbackImg, h]

/-- C9 witness: a region without an image, a region with an image, and an
attraction without a featured image, all at concrete records. -/
theorem region_image_placeholder_shared_witness :
    regionImgSrc ⟨"zanzibar", "Zanzibar", "d", none, 0, 0, 0⟩ =
      "images/photo-1547036967-23d11aacaee0.jpg" ∧
    regionImgSrc ⟨"arusha", "Arusha", "d", some "arusha.jpg", 0, 0, 0⟩ = "arusha.jpg" ∧
    attractionImgSrc ⟨"a", "A", "Arusha", some "", "easy", false⟩ =
      "images/photo-1547036967-23d11aacaee0.jpg" :=
  ⟨(region_image_placeholder_shared ⟨"zanzibar", "Zanzibar", "d", none, 0, 0, 0⟩).1 (Or.inl rfl),
   (region_image_placeholder_shared ⟨"arusha", "Arusha", "d", some "arusha.jpg", 0, 0, 0⟩).2.1
      "arusha.jpg" rfl (by decide),
   (region_image_placeholder_shared ⟨"zanzibar", "Zanzibar", "d", none, 0, 0, 0⟩).2.2
      ⟨"a", "A", "Arusha", some "", "easy", false⟩ (Or.inr rfl)⟩

/-- C1 counterexample: the claim as stated fails on the JSON-parse-error
condition.  At a success status (200) whose body fails to parse, the
adapter returns the parse error itself — not the fallback value 42 —
and logs no warning at all: api.js line 27 returns `res.json()` without
`await`, so the rejection bypasses the catch. -/
theorem apiFetch_parse_error_uncaught_counterexample :
    apiFetch false "/regions/" (NetResult.response 200 (Except.error "Unexpected token"))
        (fun _ => Except.ok (42 : Nat)) = (Except.error "Unexpected token", []) ∧
    (apiFetch false "/regions/" (NetResult.response 200 (Except.error "Unexpected token"))
        (fun _ => Except.ok (42 : Nat))).1 ≠ Except.ok 42 ∧
    (apiFetch false "/regions/" (NetResult.response 200 (Except.error "Unexpected token"))
        (fun _ => Except.ok (42 : Nat))).2.length = 0 := by
  refine ⟨rfl, ?_, rfl⟩
  intro h
  simp [apiFetch, resOk] at h

/-- C1 (amended): with the force-mock flag unset, `apiFetch` returns the
parsed JSON body with no warning — independently of the fallback
producer — whenever the HTTP response has a success status and its body
parses; on a non-success status, a network error, or a timeout/abort it
logs exactly one warning of the form
`[api] Falling back to mock data for <path>: <error>` and returns the
result of the fallback producer; but a JSON parse error on a success
status propagates to the caller with no warning and without invoking the
fallback. -/
theorem apiFetch_success_caught_failures_parse_propagates {α : Type} (path : String)
    (net : NetResult α) (mockFallback : Unit → Except String α) :
    (∀ status body v, net = .response status body → resOk status = true → body = .ok v →
      apiFetch false path net mockFallback = (.ok v, [])) ∧
    (∀ status body, net = .response status body → resOk status = false →
      apiFetch false path net mockFallback =
        (mockFallback (), [apiWarnMsg path ("API error: " ++ toString status)])) ∧
    (∀ m, net = .networkError m →
      apiFetch false path net mockFallback = (mockFallback (), [apiWarnMsg path m])) ∧
    (∀ m, net = .aborted m →
      apiFetch false path net mockFallback = (mockFallback (), [apiWarnMsg path m])) ∧
    (∀ status p, net = .response status (.error p) → resOk status = true →
      apiFetch false path net mockFallback = (.error p, [])) ∧
    (∀ e, apiWarnMsg path e = "[api] Falling back to mock data for " ++ path ++ ": " ++ e) := by
  refine ⟨?_, ?_, ?_, ?_, ?_, ?_⟩
  · rintro status body v rfl hok rfl
    simp [apiFetch, hok]
  · rintro status body rfl hok
    simp [apiFetch, hok]
  · rintro m rfl
    simp [apiFetch]
  · rintro m rfl
    simp [apiFetch]
  · rintro status p rfl hok
    simp [apiFetch, hok]
  · intro e
    rfl

/-- C1 witness: a 200 response returns the parsed body untouched with no
warning; a 500 response returns the fallback value and logs exactly the
one warning naming the path; a 200 response with an unparsable body
propagates the parse error with no warning and no fallback. -/
theorem apiFetch_success_caught_failures_parse_propagates_witness :
    apiFetch false "/regions/" (NetResult.response 200 (Except.ok (7 : Nat)))
        (fun _ => Except.ok 42) = (Except.ok 7, []) ∧
    apiFetch false "/regions/" (NetResult.response 500 (Except.ok (7 : Nat)))
        (fun _ => Except.ok 42) =
      (Except.ok 42, [apiWarnMsg "/regions/" ("API error: " ++ toString 500)]) ∧
    apiFetch false "/regions/" (NetResult.response 200 (Except.error "bad json"))
        (fun _ => Except.ok (7 : Nat)) = (Except.error "bad json", []) :=
  ⟨(apiFetch_success_caught_failures_parse_propagates "/regions/"
      (NetResult.response 200 (Except.ok 7)) (fun _ => Except.ok 42)).1
      200 (Except.ok 7) 7 rfl (by decide) rfl,
   (apiFetch_success_caught_failures_parse_propagates "/regions/"
      (NetResult.response 500 (Except.ok 7)) (fun _ => Except.ok 42)).2.1
      500 (Except.ok 7) rfl (by decide),
   (apiFetch_success_caught_failures_parse_propagates "/regions/"
      (NetResult.response 200 (Except.error "bad json")) (fun _ => Except.ok 7)).2.2.2.2.1
      200 "bad json" rfl (by decide)⟩

/-- C3: on every failure the catch block handles — a thrown non-ok
status, a network error, or an abort; these are exactly the paths on
which the fallback producer runs — a fallback that throws has its error
returned to the caller (after the one warning) instead of being caught;
with the force-mock flag set a throwing fallback propagates likewise
(and nothing is logged).  In particular `api.getAttraction` on a slug
absent from the mock details mapping ends in the
`Attraction "<slug>" not found in mock data` error. -/
theorem fallback_error_propagates {α : Type} (path : String) (net : NetResult α)
    (mockFallback : Unit → Except String α) :
    (∀ e ea, caughtError net = some ea → mockFallback () = .error e →
      apiFetch false path net mockFallback = (.error e, [apiWarnMsg path ea])) ∧
    (∀ e, mockFallback () = .error e →
      apiFetch true path net mockFallback = (.error e, [])) ∧
    (∀ (attractionDetails : String → Option α) (slug : String) (ea : String),
      attractionDetails slug = none → caughtError net = some ea →
      api.getAttraction attractionDetails slug net =
        (.error ("Attraction \"" ++ slug ++ "\" not found in mock data"),
         [apiWarnMsg ("/attractions/" ++ slug ++ "/") ea])) := by
  refine ⟨?_, ?_, ?_⟩
  · intro e ea hnet hfb
    rw [apiFetch_caught path net mockFallback ea hnet, hfb]
  · intro e hfb
    simp [apiFetch, hfb]
  · intro attractionDetails slug ea hmiss hnet
    have hfb : api.getAttractionFallback attractionDetails slug () =
        .error ("Attraction \"" ++ slug ++ "\" not found in mock data") := by
      simp [api.getAttractionFallback, hmiss]
    simp only [api.getAttraction, USE_MOCK]
    rw [apiFetch_caught ("/attractions/" ++ slug ++ "/") net
        (api.getAttractionFallback attractionDetails slug) ea hnet, hfb]

/-- C3 witness: a network error plus a throwing fallback propagates the
error of the fallback; the same with the force-mock flag set; and
`api.getAttraction` with an empty details mapping surfaces the
not-found error. -/
theorem fallback_error_propagates_witness :
    apiFetch false "/x/" (NetResult.networkError "offline")
        (fun _ => (Except.error "boom" : Except String Nat)) =
      (Except.error "boom", [apiWarnMsg "/x/" "offline"]) ∧
    apiFetch true "/x/" (NetResult.networkError "offline")
        (fun _ => (Except.error "boom" : Except String Nat)) = (Except.error "boom", []) ∧
    api.getAttraction (fun _ => (none : Option Nat)) "ghost"
        (NetResult.networkError "offline") =
      (Except.error ("Attraction \"" ++ "ghost" ++ "\" not found in mock data"),
       [apiWarnMsg ("/attractions/" ++ "ghost" ++ "/") "offline"]) :=
  ⟨(fallback_error_propagates "/x/" (NetResult.networkError "offline")
      (fun _ => Except.error "boom")).1 "boom" "offline" rfl rfl,
   (fallback_error_propagates "/x/" (NetResult.networkError "offline")
      (fun _ => Except.error "boom")).2.1 "boom" rfl,
   (fallback_error_propagates "/attractions/ghost/" (NetResult.networkError "offline")
      (fun _ => Except.error "unused")).2.2 (fun _ => none) "ghost" "offline" rfl rfl⟩

/-- C2: if either joined fetch result is a rejection — in particular
when the regions fetch succeeds but the attractions fetch failed over
the network and its fallback producer threw, and likewise when the
attractions response parses badly on an ok status (that rejection
reaches `Promise.all` directly, bypassing the adapter catch) — the
controller writes exactly the single page-level failure message and
nothing else (no partial content); on success it performs exactly one
bulk write containing every region section. -/
theorem regions_init_failure_and_bulk_write :
    (∀ (regionsRes : Except String (List Region))
       (attractionsRes : Except String (List Attraction)),
      ((∃ e, regionsRes = .error e) ∨ (∃ e, attractionsRes = .error e)) →
      init true regionsRes attractionsRes = ⟨regionsFetchPaths, [regionsFailureHtml]⟩) ∧
    (∀ (regions : List Region) (netA : NetResult (List Attraction))
       (fbA : Unit → Except String (List Attraction)) (e ea : String),
      caughtError netA = some ea → fbA () = .error e →
      init true (.ok regions) ((apiFetch false "/attractions/" netA fbA).1) =
        ⟨regionsFetchPaths, [regionsFailureHtml]⟩) ∧
    (∀ (regions : List Region) (status : Nat) (p : String)
       (fbA : Unit → Except String (List Attraction)), resOk status = true →
      init true (.ok regions)
          ((apiFetch false "/attractions/" (NetResult.response status (.error p)) fbA).1) =
        ⟨regionsFetchPaths, [regionsFailureHtml]⟩) ∧
    (∀ (regions : List Region) (attractions : List Attraction),
      init true (.ok regions) (.ok attractions) =
        ⟨regionsFetchPaths, [renderRegionsHtml regions attractions]⟩) := by
  refine ⟨?_, ?_, ?_, ?_⟩
  · rintro regionsRes attractionsRes (⟨e, rfl⟩ | ⟨e, rfl⟩)
    · simp [init]
    · cases regionsRes <;> simp [init]
  · intro regions netA fbA e ea hnet hfb
    have h1 : (apiFetch false "/attractions/" netA fbA).1 = .error e := by
      rw [apiFetch_caught "/attractions/" netA fbA ea hnet]
      exact hfb
    rw [h1]
    simp [init]
  · intro regions status p fbA hok
    have h1 : (apiFetch false "/attractions/" (NetResult.response status (.error p)) fbA).1 =
        .error p := by
      simp [apiFetch, hok]
    rw [h1]
    simp [init]
  · intro regions attractions
    rfl

/-- C2 witness: a successful regions fetch joined with an attractions
fetch whose network attempt failed and whose fallback throws yields the
single failure write, as does a 200 attractions response whose body
fails to parse; two successes yield the single bulk write. -/
theorem regions_init_failure_and_bulk_write_witness :
    init true (Except.ok [])
        ((apiFetch false "/attractions/" (NetResult.networkError "offline")
            (fun _ => (Except.error "missing key" : Except String (List Attraction)))).1) =
      ⟨regionsFetchPaths, [regionsFailureHtml]⟩ ∧
    init true (Except.ok [])
        ((apiFetch false "/attractions/" (NetResult.response 200 (Except.error "bad json"))
            (fun _ => (Except.ok [] : Except String (List Attraction)))).1) =
      ⟨regionsFetchPaths, [regionsFailureHtml]⟩ ∧
    init true (Except.ok []) (Except.ok []) =
      ⟨regionsFetchPaths, [renderRegionsHtml [] []]⟩ :=
  ⟨regions_init_failure_and_bulk_write.2.1 [] (NetResult.networkError "offline")
      (fun _ => Except.error "missing key") "missing key" "offline" rfl rfl,
   regions_init_failure_and_bulk_write.2.2.1 [] 200 "bad json"
      (fun _ => Except.ok []) (by decide),
   regions_init_failure_and_bulk_write.2.2.2 [] []⟩

/-- C5: the contributor loader renders three distinct outcomes — a
populated list becomes the joined avatar cards, a successful fetch of an
empty list becomes the explicit `Be the first!` empty-state markup, and
any failed attempt (non-ok status, network error or parse error) becomes
the static external-link markup; the empty-state and failure markups are
distinguishable. -/
theorem contributors_three_distinct_outcomes :
    (∀ (net : NetResult (List Contributor)) (cs : List Contributor),
      githubAttempt net = .ok cs → cs ≠ [] →
      loadContributors true net =
        ⟨[contributorsUrl], [String.join (cs.map buildContributorCard)]⟩) ∧
    (∀ net : NetResult (List Contributor), githubAttempt net = .ok [] →
      loadContributors true net = ⟨[contributorsUrl], [contributorsEmptyHtml]⟩) ∧
    (∀ (net : NetResult (List Contributor)) (e : String), githubAttempt net = .error e →
      loadContributors true net = ⟨[contributorsUrl], [contributorsFailureHtml]⟩) ∧
    contributorsEmptyHtml ≠ contributorsFailureHtml := by
  refine ⟨?_, ?_, ?_, ?_⟩
  · intro net cs h hne
    have hlen : (cs.length == 0) = false := by
      cases cs with
      | nil => exact absurd rfl hne
      | cons c l => rfl
    simp [loadContributors, h, hlen]
  · intro net h
    simp [loadContributors, h]
  · intro net e h
    simp [loadContributors, h]
  · decide

/-- C5 witness: a populated 200 response renders cards, a 200 response
with an empty list renders the empty state, and a 403 response renders
the external-link failure markup. -/
theorem contributors_three_distinct_outcomes_witness :
    loadContributors true (NetResult.response 200 (Except.ok [⟨"alice", "av", "ht", 2⟩])) =
      ⟨[contributorsUrl],
       [String.join ([(⟨"alice", "av", "ht", 2⟩ : Contributor)].map buildContributorCard)]⟩ ∧
    loadContributors true (NetResult.response 200 (Except.ok [])) =
      ⟨[contributorsUrl], [contributorsEmptyHtml]⟩ ∧
    loadContributors true (NetResult.response 403 (Except.ok [])) =
      ⟨[contributorsUrl], [contributorsFailureHtml]⟩ :=
  ⟨contributors_three_distinct_outcomes.1
      (NetResult.response 200 (Except.ok [⟨"alice", "av", "ht", 2⟩]))
      [⟨"alice", "av", "ht", 2⟩] rfl (List.cons_ne_nil _ _),
   contributors_three_distinct_outcomes.2.1 (NetResult.response 200 (Except.ok [])) rfl,
   contributors_three_distinct_outcomes.2.2.1 (NetResult.response 403 (Except.ok []))
      ("GitHub API: " ++ toString 403) rfl⟩

/-- C6: for any finite latitude/longitude value, the coordinate badge
shows it with exactly 4 digits after the decimal point: the rendered
string splits as `a ++ "." ++ b` where `b` is exactly four digit
characters and neither part contains another point.  On the example
region of the spec (latitude `-3.0674`, longitude `37.3556`) the badge text
is exactly `-3.0674, 37.3556`. -/
theorem coordinate_text_four_decimals :
    (∀ q : ℚ, ∃ a b : String,
      toFixed4 q = a ++ "." ++ b ∧ b.length = 4 ∧
      (∀ c ∈ b.data, c.isDigit = true) ∧ '.' ∉ a.data ∧ '.' ∉ b.data) ∧
    regionCoordText
        ⟨"kilimanjaro", "Kilimanjaro", "", none, -30674/10000, 373556/10000, 5⟩ =
      "-3.0674, 37.3556" := by
  constructor
  · intro q
    refine ⟨(if ratRound (q * 10000) < 0 then "-" else "") ++
        Nat.repr ((ratRound (q * 10000)).natAbs / 10000),
      frac4 ((ratRound (q * 10000)).natAbs % 10000),
      rfl, rfl, frac4_all_digits _, ?_, dot_not_mem_frac4 _⟩
    · rw [String.data_append]
      intro hmem
      rcases List.mem_append.mp hmem with h | h
      · by_cases hneg : ratRound (q * 10000) < 0
        · rw [if_pos hneg] at h
          have hd : ("-" : String).data = ['-'] := rfl
          rw [hd] at h
          exact absurd (List.mem_singleton.mp h) (by decide)
        · rw [if_neg hneg] at h
          have hd : ("" : String).data = [] := rfl
          rw [hd] at h
          exact absurd h (List.not_mem_nil _)
      · exact dot_not_mem_repr _ h
  · show toFixed4 (-30674/10000 : ℚ) ++ ", " ++ toFixed4 (373556/10000 : ℚ) =
      "-3.0674, 37.3556"
    have h1 : ratRound ((-30674/10000 : ℚ) * 10000) = -30674 := by
      have hq : ((-30674 : ℚ)/10000 * 10000) = ((-30674 : ℤ) : ℚ) := by norm_num
      rw [hq]
      unfold ratRound
      rw [Rat.num_intCast, Rat.den_intCast]
      decide
    have h2 : ratRound ((373556/10000 : ℚ) * 10000) = 373556 := by
      have hq : ((373556 : ℚ)/10000 * 10000) = ((373556 : ℤ) : ℚ) := by norm_num
      rw [hq]
      unfold ratRound
      rw [Rat.num_intCast, Rat.den_intCast]
      decide
    simp only [toFixed4]
    rw [h1, h2]
    decide

/-- C6 witness: the four-digit decomposition at the concrete longitude
`37.3556`. -/
theorem coordinate_text_four_decimals_witness :
    ∃ a b : String,
      toFixed4 ((373556 : ℚ)/10000) = a ++ "." ++ b ∧ b.length = 4 ∧
      (∀ c ∈ b.data, c.isDigit = true) ∧ '.' ∉ a.data ∧ '.' ∉ b.data :=
  coordinate_text_four_decimals.1 ((373556 : ℚ)/10000)

/-- C10: with the expected container element missing, both entry points
are no-ops — no URL is fetched and no HTML is written. -/
theorem missing_container_no_op (regionsRes : Except String (List Region))
    (attractionsRes : Except String (List Attraction))
    (net : NetResult (List Contributor)) :
    init false regionsRes attractionsRes = ⟨[], []⟩ ∧
    loadContributors false net = ⟨[], []⟩ :=
  ⟨rfl, rfl⟩

end TwenzetuSafari
